import Mathlib

/-!
Verification of the langflow excerpt: the `DatabaseVariableService`
(`src/backend/base/langflow/services/variable/service.py`) and the `FlowBase`
field validators (`src/backend/base/langflow/services/database/models/flow/model.py`).

The persistence session is modelled as an insertion-ordered list of rows
(`select ... .first()` is `List.find?`, `session.add` of an attached row is an
in-place replacement by id, `session.add` of a new row appends).  The external
encryption collaborator (`auth_utils.encrypt_api_key` / `decrypt_api_key`) is a
function parameter; where a claim is about exception propagation the parameter
is `String → Except String String`, so that a raised exception is an `.error`.
Machine details that Python leaves to CPython builtins (`str.islower`,
`str.isalpha`, `str.strip`, truthiness of strings) are embedded as small
`py...` helpers over `String.data`.
-/

namespace Langflow

/-- Modelled from the spec: `langflow/services/variable/constants.py` is not in
`src/`; the spec says the type set is "a small closed set including generic and
credential".  The service compares `variable.type == CREDENTIAL_TYPE` and its
error message names the type `Credential`, so the constants are the capitalised
names. -/
def CREDENTIAL_TYPE : String := "Credential"

/-- Modelled from the spec: the non-credential member of the closed type set,
the default `_type` of `create_variable`. -/
def GENERIC_TYPE : String := "Generic"

/-- Modelled from the spec: a persisted `Variable` row — `id`, `user_id`
(owning user, required), `name`, `type`, `value` (the stored blob),
`default_fields`, `updated_at` (`langflow/services/database/models/variable/model.py`
is not in `src/`; the spec lists exactly these fields).  Identifiers and
timestamps are `Nat`. -/
structure Variable where
  id : Nat
  user_id : Nat
  name : String
  type : String
  value : String
  default_fields : List String
  updated_at : Option Nat
deriving DecidableEq

/-- Modelled from the spec: the partial-field patch accepted by
`update_variable_fields` ("applies only the fields present in the patch").
A `some` field is present in `model_dump(exclude_unset=True)`. -/
structure VariableUpdate where
  name : Option String
  value : Option String
  default_fields : Option (List String)
deriving DecidableEq

/-- Errors the service raises: `ValueError`, `TypeError`, and the
`NoResultFound`/`MultipleResultsFound` that `session.exec(query).one()`
propagates. -/
inductive VErr where
  | valueError (msg : String)
  | typeError (msg : String)
  | noResultFound
deriving DecidableEq

/-- `session.exec(select(Variable).where(Variable.user_id == user_id,
Variable.name == name)).first()`. -/
def findVar (store : List Variable) (uid : Nat) (name : String) : Option Variable :=
  store.find? (fun v => v.user_id == uid && v.name == name)

/-- `session.add` of a row that is already attached to the session, followed by
`commit`: the row with that id now holds the mutated fields. -/
def replaceById (store : List Variable) (v : Variable) : List Variable :=
  store.map (fun w => if w.id = v.id then v else w)

/-- `DatabaseVariableService.get_variable` (service.py lines 67-91): look up by
(user_id, name); `ValueError` if absent or the stored value is falsy (empty);
`TypeError` if the type is `CREDENTIAL_TYPE` and the field is `"session_id"`;
otherwise return the decrypted value.  `decrypt` is the external
`auth_utils.decrypt_api_key`. -/
def get_variable (decrypt : String → String) (store : List Variable)
    (uid : Nat) (name field : String) : Except VErr String :=
  match findVar store uid name with
  | Option.none => .error (.valueError (name ++ " variable not found."))
  | some v =>
    if v.value = "" then .error (.valueError (name ++ " variable not found."))
    else if v.type = CREDENTIAL_TYPE ∧ field = "session_id" then
      .error (.typeError ("variable " ++ name ++
        " of type Credential cannot be used in a Session ID field because its purpose is to prevent the exposure of values."))
    else .ok (decrypt v.value)

/-- `DatabaseVariableService.update_variable` (service.py lines 100-116): look
up by (user_id, name); `ValueError` if absent (session untouched); otherwise
set `value` to the encrypted new value, add, commit, refresh and return the
row.  Note the source mutates only `value`: no other field, in particular not
`updated_at`, is assigned. -/
def update_variable (encrypt : String → String) (store : List Variable)
    (uid : Nat) (name value : String) : Except VErr Variable × List Variable :=
  match findVar store uid name with
  | Option.none => (.error (.valueError (name ++ " variable not found.")), store)
  | some v =>
    let v' := { v with value := encrypt value }
    (.ok v', replaceById store v')

/-- `setattr(db_variable, key, value)` for each key of
`variable.model_dump(exclude_unset=True)`. -/
def applyPatch (db : Variable) (p : VariableUpdate) : Variable :=
  { db with
    name := p.name.getD db.name
    value := p.value.getD db.value
    default_fields := p.default_fields.getD db.default_fields }

/-- `DatabaseVariableService.update_variable_fields` (service.py lines
118-138): `session.exec(query).one()` propagates unless exactly one row
matches (id, user_id); the patch is applied by `setattr`, `updated_at` is set
to `datetime.now(timezone.utc)` (the `now` argument); then the source computes
`encrypted = encrypt_api_key(db_variable.value)` and assigns it to
`variable.value` — the incoming patch object, which is discarded — while
`session.add(db_variable)` persists the row with its un-re-encrypted value.
`_patchAfter` reproduces that dead assignment. -/
def update_variable_fields (encrypt : String → String) (store : List Variable)
    (uid vid : Nat) (patch : VariableUpdate) (now : Nat) :
    Except VErr Variable × List Variable :=
  match store.filter (fun w => w.id == vid && w.user_id == uid) with
  | [db] =>
    let db1 := applyPatch db patch
    let db2 := { db1 with updated_at := some now }
    let _patchAfter := { patch with value := some (encrypt db2.value) }
    (.ok db2, replaceById store db2)
  | _ => (.error .noResultFound, store)

/-- `DatabaseVariableService.create_variable` (service.py lines 162-181):
encrypt the plaintext, build the row (`Variable.model_validate` with the
caller's `user_id`; the model gives a fresh id, here the `fresh_id` argument,
and leaves `updated_at` unset), `session.add` the new row, commit, refresh,
return it. -/
def create_variable (encrypt : String → String) (store : List Variable)
    (uid : Nat) (name value : String) (default_fields : List String)
    (ty : String) (fresh_id : Nat) : Variable × List Variable :=
  let v : Variable :=
    { id := fresh_id, user_id := uid, name := name, type := ty,
      value := encrypt value, default_fields := default_fields,
      updated_at := Option.none }
  (v, store ++ [v])

/-- The two settings the service reads: the "store environment variables" flag
and the allow-list of environment variable names. -/
structure Settings where
  store_environment_variables : Bool
  variables_to_get_from_environment : List String
deriving DecidableEq

/-- `os.environ` as an association list; `var in os.environ` is
`(envLookup env var).isSome` and `os.environ[var]` its value. -/
def envLookup (env : List (String × String)) (var : String) : Option String :=
  (env.find? (fun p => p.1 == var)).map (fun p => p.2)

/-- The per-variable loop of `DatabaseVariableService.initialize_user_variables`
(service.py lines 30-62).  `encryptE` is the external `encrypt_api_key`, which
may raise (`.error`).  For a variable present in the environment:
* if a row (user_id, name) already exists, the source re-encrypts
  `os.environ[var].strip()` and overwrites the row — this branch is NOT inside
  a `try`/`except`, so a raised exception propagates and ends the loop;
* otherwise the whole create branch is inside `try`/`except Exception`: a
  failure is logged and the loop continues.  The `.ok` case inlines
  `create_variable` (value encrypted, `default_fields=[]`,
  `_type=CREDENTIAL_TYPE`), with `nextId` as the fresh row id. -/
def initVarsLoop (encryptE : String → Except String String)
    (env : List (String × String)) (uid : Nat) :
    List String → List Variable → Nat → Except String (List Variable × Nat)
  | [], store, nextId => .ok (store, nextId)
  | var :: rest, store, nextId =>
    match envLookup env var with
    | Option.none => initVarsLoop encryptE env uid rest store nextId
    | some raw =>
      match findVar store uid var with
      | some found =>
        match encryptE raw.trim with
        | .error e => .error e
        | .ok enc =>
          initVarsLoop encryptE env uid rest
            (replaceById store { found with value := enc }) nextId
      | Option.none =>
        match encryptE raw.trim with
        | .error _ => initVarsLoop encryptE env uid rest store nextId
        | .ok enc =>
          let v : Variable :=
            { id := nextId, user_id := uid, name := var, type := CREDENTIAL_TYPE,
              value := enc, default_fields := [], updated_at := Option.none }
          initVarsLoop encryptE env uid rest (store ++ [v]) (nextId + 1)

/-- `DatabaseVariableService.initialize_user_variables` (service.py lines
25-65): when `store_environment_variables` is off the operation only logs;
otherwise it runs the per-variable loop over the allow-list. -/
def init_user_variables (encryptE : String → Except String String)
    (settings : Settings) (env : List (String × String)) (uid : Nat)
    (store : List Variable) (nextId : Nat) : Except String (List Variable × Nat) :=
  if settings.store_environment_variables then
    initVarsLoop encryptE env uid settings.variables_to_get_from_environment store nextId
  else .ok (store, nextId)

/-! ## FlowBase field validators (`flow/model.py`) -/

/-- Python `s.startswith(c)` for a one-character prefix: the first character
is `c`. -/
def pyStartsWith1 (s : String) (c : Char) : Bool := s.data.head? == some c

/-- Python `s.endswith(c)` for a one-character suffix: the last character is
`c`. -/
def pyEndsWith1 (s : String) (c : Char) : Bool := s.data.getLast? == some c

/-- Python `s.islower()` (restricted to ASCII case, which is all the validator
compares): there is at least one cased character and no cased character is
uppercase. -/
def pyIsLower (s : String) : Bool :=
  s.data.any (fun c => c.isLower || c.isUpper) && s.data.all (fun c => !c.isUpper)

/-- Python `s.replace("-", "").isalpha()` (ASCII letters): removing every
hyphen must leave a non-empty list of letters. -/
def pyIsAlphaNoDash (s : String) : Bool :=
  let cs := s.data.filter (fun c => c ≠ '-')
  !cs.isEmpty && cs.all Char.isAlpha

/-- The character class of the endpoint-name pattern `[a-zA-Z0-9_-]`. -/
def endpointChar (c : Char) : Bool :=
  c.isAlpha || c.isDigit || c == '_' || c == '-'

/-- Python `re.match(r"^[a-zA-Z0-9_-]+$", s) is not None`.  CPython's `$`
(without `re.MULTILINE`) matches at the end of the string or just before a
newline at the end of the string, so the pattern matches exactly when the
string, after dropping at most one trailing newline, is a non-empty run of
class characters. -/
def reMatchEndpoint (s : String) : Bool :=
  let cs := s.data
  let body := if cs.getLast? == some '\n' then cs.dropLast else cs
  !body.isEmpty && body.all endpointChar

/-- The 422 `HTTPException` the endpoint-name validator raises. -/
structure HTTPErr where
  status_code : Nat
  detail : String
deriving DecidableEq

/-- `FlowBase.validate_endpoint_name` (model.py lines 37-52; repeated verbatim
as `FlowUpdate.validate_endpoint_name`, lines 197-212): `None` passes; the
`isinstance(v, str)` branch is vacuous in this typed embedding; a string that
fails the regex raises 422, otherwise it is returned unchanged. -/
def validate_endpoint_name (v : Option String) : Except HTTPErr (Option String) :=
  match v with
  | Option.none => .ok Option.none
  | some s =>
    if reMatchEndpoint s then .ok (some s)
    else .error
      ⟨422, "Endpoint name must contain only letters, numbers, hyphens, and underscores"⟩

/-- `FlowBase.validate_icon_bg_color` (model.py lines 54-68): `None` passes;
the `isinstance` branch is vacuous here; `if v and not v.startswith("#")`
raises, then `if v and len(v) != 7` raises — both guards are skipped for the
falsy empty string — otherwise the value is returned. -/
def validate_icon_bg_color (v : Option String) : Except String (Option String) :=
  match v with
  | Option.none => .ok Option.none
  | some s =>
    if s ≠ "" ∧ pyStartsWith1 s '#' = false then
      .error "Icon background color must start with #"
    else if s ≠ "" ∧ s.length ≠ 7 then
      .error "Icon background color must be 7 characters long"
    else .ok (some s)

/-- `FlowBase.validate_icon_atr` (model.py lines 70-108), parameterized by the
external emoji collaborator: `emojize` is `emoji.emojize(·, variant="emoji_type")`
and `purelyEmoji` is `emoji.purely_emoji`.  `None` passes; a string with
neither a leading nor a trailing colon passes unchanged; a string with exactly
one of the two raises; otherwise the name is resolved.  The source's
`if v == emoji_value: warnings.warn(...); icon = v` assignment is dead (it is
at once overwritten by `icon = emoji_value`), so `icon` is always the resolved
value.  If `icon` is purely emoji it is returned; otherwise the lucide checks
run on the original `v` (both guarded by the truthiness of `v`). -/
def validate_icon_atr (emojize : String → String) (purelyEmoji : String → Bool)
    (v : Option String) : Except String (Option String) :=
  match v with
  | Option.none => .ok Option.none
  | some s =>
    if pyStartsWith1 s ':' = false ∧ pyEndsWith1 s ':' = false then .ok (some s)
    else if pyStartsWith1 s ':' = false ∨ pyEndsWith1 s ':' = false then
      .error ("Invalid emoji. " ++ s ++ " is not a valid emoji.")
    else
      let icon := emojize s
      if purelyEmoji icon then .ok (some icon)
      else if s ≠ "" ∧ pyIsLower s = false then .error "Icon must be lowercase"
      else if s ≠ "" ∧ pyIsAlphaNoDash s = false then
        .error "Icon must contain only letters and hyphens"
      else .ok (some s)

/-! ## `updated_at` serialization (`flow/model.py` lines 129-147)

The Python `datetime` type and its `isoformat`/`fromisoformat` are external
(CPython); the record below carries the fields the serializer touches, and the
two conversion functions are parameters. -/

/-- A `datetime.datetime` value: calendar fields, `microsecond`, and `tzinfo`
as an optional UTC offset in minutes (`Option.none` = naive;
`some 0` = `timezone.utc`). -/
structure PyDatetime where
  year : Nat
  month : Nat
  day : Nat
  hour : Nat
  minute : Nat
  second : Nat
  microsecond : Nat
  tzinfo : Option Int
deriving DecidableEq

/-- The value of the `updated_at` field as the serializer/validator sees it:
`None`, a `datetime`, or a string. -/
inductive DtValue where
  | vnone
  | dt (d : PyDatetime)
  | str (s : String)
deriving DecidableEq

/-- `FlowBase.serialize_datetime` (model.py lines 129-138): a `datetime` is
truncated (`replace(microsecond=0)`), given `timezone.utc` when naive, and
rendered with `isoformat`; any other value is returned unchanged. -/
def serialize_datetime (isoformat : PyDatetime → String) (value : DtValue) : DtValue :=
  match value with
  | .dt d =>
    let d1 := { d with microsecond := 0 }
    let d2 := if d1.tzinfo = Option.none then { d1 with tzinfo := some 0 } else d1
    .str (isoformat d2)
  | v => v

/-- `FlowBase.validate_dt` (model.py lines 140-147): `None` and `datetime`
values pass through; a string is parsed by `datetime.fromisoformat`, whose
failure on an unparseable string propagates. -/
def validate_dt (fromisoformat : String → Option PyDatetime) (v : DtValue) :
    Except String (Option PyDatetime) :=
  match v with
  | .vnone => .ok Option.none
  | .dt d => .ok (some d)
  | .str s =>
    match fromisoformat s with
    | some d => .ok (some d)
    | Option.none => .error "Invalid isoformat string"

/-! ## Helper lemmas -/

/-- Prepending the one-character string "C" puts 'C' in front of the data. -/
theorem appendC_data (s : String) : ("C" ++ s).data = 'C' :: s.data := rfl

/-- A concrete injective cipher used to instantiate the encryption
collaborator: prefixing "C" never returns its input. -/
theorem appendC_ne (s : String) : "C" ++ s ≠ s := by
  intro h
  have hd := congrArg String.data h
  rw [appendC_data] at hd
  have hl := congrArg List.length hd
  simp at hl

/-- Prefixing "C" never yields the empty string. -/
theorem appendC_ne_empty (s : String) : "C" ++ s ≠ "" := by
  intro h
  have hd := congrArg String.data h
  rw [appendC_data] at hd
  exact List.cons_ne_nil _ _ hd

/-- Dropping the first character undoes prefixing "C": a concrete left inverse
for the concrete cipher. -/
theorem dropC_appendC (s : String) : String.mk (("C" ++ s).data.drop 1) = s := by
  rw [appendC_data]
  cases s
  simp

/-! ## Claim theorems -/

/-- C1: the encryption-at-rest invariant fails in `update_variable_fields`.
With the cipher `encrypt := "C" ++ ·`, a store holding one row whose value
`"Cold"` is a ciphertext, and a patch that sets `value := "plain"`, the
operation persists the raw plaintext `"plain"` in the row (and returns it),
while the re-encrypted `"Cplain"` differs from it: the source assigns the
ciphertext to the discarded patch object instead of the persisted row. -/
theorem update_variable_fields_stores_plaintext :
    update_variable_fields (fun s => "C" ++ s)
        [⟨0, 1, "k", GENERIC_TYPE, "Cold", [], some 3⟩] 1 0
        ⟨Option.none, some "plain", Option.none⟩ 9 =
      (.ok ⟨0, 1, "k", GENERIC_TYPE, "plain", [], some 9⟩,
        [⟨0, 1, "k", GENERIC_TYPE, "plain", [], some 9⟩]) ∧
    ("C" ++ "plain" : String) ≠ "plain" := by
  exact ⟨rfl, by decide⟩

/-- C4: `validate_endpoint_name` accepts `"a\n"` unchanged although `'\n'` is
outside the class `[A-Za-z0-9_-]`: CPython's `$` also matches just before a
trailing newline, contradicting the validator's own error message. -/
theorem endpoint_name_accepts_trailing_newline :
    validate_endpoint_name (some "a\n") = .ok (some "a\n") ∧
    endpointChar '\n' = false := by
  exact ⟨rfl, rfl⟩

/-- C2 counterexample: with the allow-list `["V"]`, `V` in the environment and
a row (user 1, name "V") already in the store, an encryption failure in the
re-encrypt-and-overwrite branch is not caught: `initialize_user_variables`
propagates the exception to the caller instead of logging it and continuing,
so the claim that every per-variable failure is caught is false. -/
theorem init_update_branch_failure_aborts :
    init_user_variables (fun _ => .error "boom") ⟨true, ["V"]⟩ [("V", "x")] 1
        [⟨0, 1, "V", CREDENTIAL_TYPE, "old", [], Option.none⟩] 5 =
      .error "boom" := rfl

/-- C3 counterexample: a successful `update_variable` leaves `updated_at`
exactly as it was (`some 5`) — the source assigns only `value` — so the claim
that the operation refreshes the `updated_at` timestamp is false. -/
theorem update_variable_keeps_updated_at :
    update_variable (fun s => "C" ++ s)
        [⟨0, 1, "n", GENERIC_TYPE, "Cold", [], some 5⟩] 1 "n" "new" =
      (.ok ⟨0, 1, "n", GENERIC_TYPE, "Cnew", [], some 5⟩,
        [⟨0, 1, "n", GENERIC_TYPE, "Cnew", [], some 5⟩]) := rfl

/-- C6 counterexample: for a credential-typed row whose stored value is empty,
`get_variable` with `field = "session_id"` fails with the NotFound
`ValueError`, not with the policy `TypeError`, although the matched variable's
type is credential and the field is the session-id field — so the claim's
"fails with a policy/type error if and only if" is false at this input. -/
theorem get_variable_notfound_shadows_type_error :
    get_variable (fun s => s) [⟨0, 1, "n", CREDENTIAL_TYPE, "", [], Option.none⟩]
        1 "n" "session_id" =
      .error (.valueError "n variable not found.") ∧
    (findVar [⟨0, 1, "n", CREDENTIAL_TYPE, "", [], Option.none⟩] 1 "n").map
        Variable.type = some CREDENTIAL_TYPE := by
  exact ⟨rfl, rfl⟩

/-- C8 counterexample: `validate_icon_bg_color` accepts the empty string
unchanged — it is non-null, does not start with `#` and is not 7 characters
long, yet both guards are skipped because Python's `if v` treats `""` as
falsy — so the claim that every such violation raises is false. -/
theorem icon_bg_color_accepts_empty :
    validate_icon_bg_color (some "") = .ok (some "") ∧
    pyStartsWith1 "" '#' = false ∧ ("" : String).length ≠ 7 := by
  refine ⟨?_, rfl, by decide⟩
  rfl

/-- Looking a name up in a store with no match continues into the appended
suffix. -/
theorem findVar_append_of_none (store l : List Variable) (uid : Nat) (name : String)
    (h : findVar store uid name = Option.none) :
    findVar (store ++ l) uid name = findVar l uid name := by
  unfold findVar at h ⊢
  rw [List.find?_append, h, Option.none_or]

/-- C2 (amended): a failure while creating a NEW variable from the environment
is caught: when the variable is present in the environment, no row
(user, name) exists, and the encryption primitive raises, the batch goes on
with the remaining allow-listed variables and an unchanged store.  (A failure
in the re-encrypt-existing branch instead propagates, see the
counterexample.) -/
theorem init_create_branch_failure_caught (encryptE : String → Except String String)
    (env : List (String × String)) (uid : Nat) (var : String) (rest : List String)
    (store : List Variable) (nextId : Nat) (raw e : String)
    (henv : envLookup env var = some raw)
    (hfind : findVar store uid var = Option.none)
    (henc : encryptE raw.trim = .error e) :
    init_user_variables encryptE ⟨true, var :: rest⟩ env uid store nextId =
      initVarsLoop encryptE env uid rest store nextId := by
  simp only [init_user_variables, initVarsLoop, henv, hfind, henc, if_true]

/-- C2 (amended) at a concrete input: allow-list `["V"]`, environment value
`"a"`, empty store, encryption always failing — the batch completes with the
store unchanged. -/
theorem init_create_branch_failure_caught_witness :
    init_user_variables (fun _ => .error "x") ⟨true, ["V"]⟩ [("V", "a")] 1 [] 0 =
      .ok ([], 0) :=
  (init_create_branch_failure_caught (fun _ => .error "x") [("V", "a")] 1 "V" []
    [] 0 "a" "x" rfl rfl rfl).trans rfl

/-- C3 (amended): `update_variable` fails with the NotFound `ValueError` and
leaves the store unchanged when no row matches (user, name); otherwise it
persists the row with `value` re-encrypted and every other field — including
`updated_at`, which the claim said is refreshed — unchanged, and returns that
row. -/
theorem update_variable_spec (encrypt : String → String) (store : List Variable)
    (uid : Nat) (name value : String) :
    (findVar store uid name = Option.none →
      update_variable encrypt store uid name value =
        (.error (.valueError (name ++ " variable not found.")), store)) ∧
    (∀ v, findVar store uid name = some v →
      ∃ v', update_variable encrypt store uid name value = (.ok v', replaceById store v') ∧
        v'.value = encrypt value ∧ v'.updated_at = v.updated_at ∧
        v'.id = v.id ∧ v'.user_id = v.user_id ∧ v'.name = v.name ∧
        v'.type = v.type ∧ v'.default_fields = v.default_fields) := by
  constructor
  · intro h
    unfold update_variable
    rw [h]
  · intro v h
    unfold update_variable
    rw [h]
    exact ⟨_, rfl, rfl, rfl, rfl, rfl, rfl, rfl, rfl⟩

/-- C3 (amended) at a concrete input: updating `"n"` persists the re-encrypted
value and keeps `updated_at` at `some 5`. -/
theorem update_variable_spec_witness :
    ∃ v', update_variable (fun s => "C" ++ s)
        [⟨0, 1, "n", GENERIC_TYPE, "Cold", [], some 5⟩] 1 "n" "new" =
        (.ok v', replaceById [⟨0, 1, "n", GENERIC_TYPE, "Cold", [], some 5⟩] v') ∧
      v'.value = "Cnew" ∧ v'.updated_at = some 5 ∧
      v'.id = 0 ∧ v'.user_id = 1 ∧ v'.name = "n" ∧
      v'.type = GENERIC_TYPE ∧ v'.default_fields = [] :=
  (update_variable_spec (fun s => "C" ++ s)
    [⟨0, 1, "n", GENERIC_TYPE, "Cold", [], some 5⟩] 1 "n" "new").2
    ⟨0, 1, "n", GENERIC_TYPE, "Cold", [], some 5⟩ rfl

/-- A cipher satisfying the claim's two hypotheses (its inverse is `decCE`,
it never returns its input) whose ciphertext for `"secret123"` is empty. -/
def encCE (s : String) : String := if s = "secret123" then "" else "C" ++ s

/-- The left inverse of `encCE`. -/
def decCE (s : String) : String :=
  if s = "" then "secret123" else String.mk (s.data.drop 1)

/-- `decCE` inverts `encCE` on every plaintext. -/
theorem decCE_encCE (s : String) : decCE (encCE s) = s := by
  unfold encCE decCE
  by_cases h : s = "secret123"
  · rw [if_pos h, if_pos rfl, h]
  · rw [if_neg h, if_neg (appendC_ne_empty s)]
    exact dropC_appendC s

/-- `encCE` never returns its input. -/
theorem encCE_ne (s : String) : encCE s ≠ s := by
  unfold encCE
  by_cases h : s = "secret123"
  · rw [if_pos h, h]
    decide
  · rw [if_neg h]
    exact appendC_ne s

/-- C5 counterexample: under only the claim's hypotheses (decrypt inverts
encrypt, encrypt never returns its input) the round-trip can fail: `encCE`
encrypts `"secret123"` to the empty string, and `get_variable` treats an empty
stored value as NotFound, so reading the freshly created variable back raises
instead of returning `"secret123"`. -/
theorem create_get_roundtrip_fails_on_empty_ciphertext :
    ¬ (∀ (encrypt decrypt : String → String),
        (∀ s, decrypt (encrypt s) = s) → (∀ s, encrypt s ≠ s) →
        ∀ (store : List Variable) (uid : Nat) (name value : String)
          (dfs : List String) (ty : String) (fid : Nat) (field : String),
          findVar store uid name = Option.none → field ≠ "session_id" →
          get_variable decrypt (create_variable encrypt store uid name value dfs ty fid).2
              uid name field = .ok value ∧
          (create_variable encrypt store uid name value dfs ty fid).1.value ≠ value) := by
  intro hclaim
  have h := (hclaim encCE decCE decCE_encCE encCE_ne [] 1 "n" "secret123" []
    GENERIC_TYPE 0 "other" rfl (by decide)).1
  rw [show get_variable decCE (create_variable encCE [] 1 "n" "secret123" []
      GENERIC_TYPE 0).2 1 "n" "other" =
      .error (.valueError "n variable not found.") from rfl] at h
  exact Except.noConfusion h

/-- C5 (amended): creating a variable and reading it back returns the original
plaintext, and the persisted value differs from the plaintext — under the
claim's hypotheses (decrypt inverts encrypt; encrypt never returns its input)
plus the two the counterexample forces: the ciphertext of the created value is
non-empty (`get_variable` reports an empty stored value as NotFound) and no
row for (user, name) precedes the new one in the store (the data model's
uniqueness invariant). -/
theorem create_get_roundtrip (encrypt decrypt : String → String)
    (store : List Variable) (uid : Nat) (name value : String)
    (dfs : List String) (ty : String) (fid : Nat) (field : String)
    (hinv : ∀ s, decrypt (encrypt s) = s) (hne : ∀ s, encrypt s ≠ s)
    (hct : encrypt value ≠ "") (hfresh : findVar store uid name = Option.none)
    (hfield : field ≠ "session_id") :
    get_variable decrypt (create_variable encrypt store uid name value dfs ty fid).2
        uid name field = .ok value ∧
    (create_variable encrypt store uid name value dfs ty fid).1.value ≠ value := by
  have hnew : findVar (create_variable encrypt store uid name value dfs ty fid).2
      uid name = some ⟨fid, uid, name, ty, encrypt value, dfs, Option.none⟩ := by
    show findVar (store ++ [⟨fid, uid, name, ty, encrypt value, dfs, Option.none⟩])
      uid name = _
    rw [findVar_append_of_none _ _ _ _ hfresh]
    unfold findVar
    apply List.find?_cons_of_pos
    simp
  constructor
  · unfold get_variable
    simp only [hnew]
    rw [if_neg hct, if_neg (fun hc => hfield hc.2), hinv value]
  · exact hne value

/-- C5 (amended) at a concrete input: with the cipher `"C" ++ ·`, creating
`"secret123"` under user 1 and reading it back returns `"secret123"`, and the
stored blob is not the plaintext. -/
theorem create_get_roundtrip_witness :
    get_variable (fun s => String.mk (s.data.drop 1))
        (create_variable (fun s => "C" ++ s) [] 1 "n" "secret123" []
          GENERIC_TYPE 0).2 1 "n" "other" = .ok "secret123" ∧
    (create_variable (fun s => "C" ++ s) [] 1 "n" "secret123" []
      GENERIC_TYPE 0).1.value ≠ "secret123" :=
  create_get_roundtrip (fun s => "C" ++ s) (fun s => String.mk (s.data.drop 1))
    [] 1 "n" "secret123" [] GENERIC_TYPE 0 "other"
    dropC_appendC appendC_ne (appendC_ne_empty "secret123") rfl (by decide)

/-- C6 (amended): a full characterization of `get_variable`.  It fails with
the NotFound `ValueError` iff no row matches (user, name) or the first
matching row's stored value is empty; it fails with the policy `TypeError` iff
a row matches, its stored value is NON-empty (the conjunct the counterexample
forces: an empty credential value is reported NotFound first), its type is the
credential type and the field is the literal `"session_id"`; in every other
case it returns the decrypted stored value. -/
theorem get_variable_spec (decrypt : String → String) (store : List Variable)
    (uid : Nat) (name field : String) :
    ((∃ m, get_variable decrypt store uid name field = .error (.valueError m)) ↔
      findVar store uid name = Option.none ∨
        ∃ v, findVar store uid name = some v ∧ v.value = "") ∧
    ((∃ m, get_variable decrypt store uid name field = .error (.typeError m)) ↔
      ∃ v, findVar store uid name = some v ∧ v.value ≠ "" ∧
        v.type = CREDENTIAL_TYPE ∧ field = "session_id") ∧
    (∀ p, get_variable decrypt store uid name field = .ok p ↔
      ∃ v, findVar store uid name = some v ∧ v.value ≠ "" ∧
        ¬(v.type = CREDENTIAL_TYPE ∧ field = "session_id") ∧
        p = decrypt v.value) := by
  rcases hf : findVar store uid name with _ | v
  · unfold get_variable
    refine ⟨?_, ?_, ?_⟩ <;> simp [hf]
  · unfold get_variable
    simp only [hf]
    by_cases hval : v.value = ""
    · rw [if_pos hval]
      refine ⟨?_, ?_, ?_⟩ <;> simp [hval]
    · rw [if_neg hval]
      by_cases hcred : v.type = CREDENTIAL_TYPE ∧ field = "session_id"
      · rw [if_pos hcred]
        refine ⟨?_, ?_, ?_⟩ <;> simp [hval, hcred]
      · rw [if_neg hcred]
        refine ⟨?_, ?_, ?_⟩
        · simp [hval]
        · simp [hcred]
        · intro p
          simp only [Except.ok.injEq]
          constructor
          · intro hp
            exact ⟨v, rfl, hval, hcred, hp.symm⟩
          · rintro ⟨v', hv', _, _, hp⟩
            injection hv' with hv'
            subst hv'
            exact hp.symm

/-- C7: the icon colon rule, for any emoji collaborator.  A text with neither
a leading nor a trailing colon passes through unchanged with no further
checks; a text with exactly one of the two raises the invalid-emoji error. -/
theorem icon_colon_rule (emojize : String → String) (purelyEmoji : String → Bool)
    (s : String) :
    (pyStartsWith1 s ':' = false → pyEndsWith1 s ':' = false →
      validate_icon_atr emojize purelyEmoji (some s) = .ok (some s)) ∧
    (pyStartsWith1 s ':' ≠ pyEndsWith1 s ':' →
      validate_icon_atr emojize purelyEmoji (some s) =
        .error ("Invalid emoji. " ++ s ++ " is not a valid emoji.")) := by
  constructor
  · intro h1 h2
    simp only [validate_icon_atr]
    rw [if_pos ⟨h1, h2⟩]
  · intro hne
    simp only [validate_icon_atr]
    rw [if_neg, if_pos]
    · cases hS : pyStartsWith1 s ':' with
      | false => exact Or.inl rfl
      | true =>
        cases hE : pyEndsWith1 s ':' with
        | false => exact Or.inr rfl
        | true => exact absurd (hS.trans hE.symm) hne
    · rintro ⟨h1, h2⟩
      exact hne (h1.trans h2.symm)

/-- C7 at concrete inputs: `"rocket"` passes unchanged, `":rocket"` raises. -/
theorem icon_colon_rule_witness :
    validate_icon_atr (fun x => x) (fun _ => false) (some "rocket") =
      .ok (some "rocket") ∧
    validate_icon_atr (fun x => x) (fun _ => false) (some ":rocket") =
      .error ("Invalid emoji. " ++ ":rocket" ++ " is not a valid emoji.") :=
  ⟨(icon_colon_rule (fun x => x) (fun _ => false) "rocket").1 rfl rfl,
   (icon_colon_rule (fun x => x) (fun _ => false) ":rocket").2 (by decide)⟩

/-- C8 (amended): `validate_icon_bg_color` on a NON-empty string raises unless
it starts with `#`, then raises unless it is exactly 7 characters, and accepts
any 7-character string starting with `#` (no hex check); the empty string —
the input the counterexample exhibits — passes through because both guards
test Python truthiness. -/
theorem icon_bg_color_spec (s : String) :
    (s ≠ "" → pyStartsWith1 s '#' = false →
      validate_icon_bg_color (some s) =
        .error "Icon background color must start with #") ∧
    (s ≠ "" → pyStartsWith1 s '#' = true → s.length ≠ 7 →
      validate_icon_bg_color (some s) =
        .error "Icon background color must be 7 characters long") ∧
    (pyStartsWith1 s '#' = true → s.length = 7 →
      validate_icon_bg_color (some s) = .ok (some s)) := by
  refine ⟨?_, ?_, ?_⟩
  · intro h1 h2
    simp only [validate_icon_bg_color]
    rw [if_pos ⟨h1, h2⟩]
  · intro h1 h2 h3
    simp only [validate_icon_bg_color]
    rw [if_neg, if_pos ⟨h1, h3⟩]
    rintro ⟨_, hc⟩
    exact absurd (h2.symm.trans hc) (by decide)
  · intro h1 h2
    simp only [validate_icon_bg_color]
    rw [if_neg, if_neg]
    · rintro ⟨_, hc⟩
      exact hc h2
    · rintro ⟨_, hc⟩
      exact absurd (h1.symm.trans hc) (by decide)

/-- C8 (amended) at concrete inputs: `"1a2b3c"` (no `#`) raises, `"#1a2b3"`
(6 characters) raises, `"#1a2b3c"` is accepted. -/
theorem icon_bg_color_spec_witness :
    validate_icon_bg_color (some "1a2b3c") =
      .error "Icon background color must start with #" ∧
    validate_icon_bg_color (some "#1a2b3") =
      .error "Icon background color must be 7 characters long" ∧
    validate_icon_bg_color (some "#1a2b3c") = .ok (some "#1a2b3c") :=
  ⟨(icon_bg_color_spec "1a2b3c").1 (by decide) rfl,
   (icon_bg_color_spec "#1a2b3").2.1 (by decide) rfl (by decide),
   (icon_bg_color_spec "#1a2b3c").2.2 rfl rfl⟩

/-- C9: serializing `updated_at` and re-parsing the serialized text yields the
original datetime truncated to whole seconds, with an explicit UTC offset
attached when the original carries no time zone (and the original offset kept
otherwise).  `isoformat`/`fromisoformat` are the external CPython datetime
primitives; the hypothesis is their documented round-trip contract at the one
value the serializer renders. -/
theorem updated_at_roundtrip (isoformat : PyDatetime → String)
    (fromisoformat : String → Option PyDatetime) (d : PyDatetime)
    (h : fromisoformat
        (isoformat { d with microsecond := 0, tzinfo := some (d.tzinfo.getD 0) }) =
      some { d with microsecond := 0, tzinfo := some (d.tzinfo.getD 0) }) :
    ∃ e, validate_dt fromisoformat (serialize_datetime isoformat (.dt d)) =
        .ok (some e) ∧
      e.year = d.year ∧ e.month = d.month ∧ e.day = d.day ∧ e.hour = d.hour ∧
      e.minute = d.minute ∧ e.second = d.second ∧ e.microsecond = 0 ∧
      e.tzinfo = some (d.tzinfo.getD 0) := by
  have hser : serialize_datetime isoformat (.dt d) =
      .str (isoformat { d with microsecond := 0, tzinfo := some (d.tzinfo.getD 0) }) := by
    cases hz : d.tzinfo <;> simp [serialize_datetime, hz]
  rw [hser]
  simp only [validate_dt]
  rw [h]
  exact ⟨_, rfl, rfl, rfl, rfl, rfl, rfl, rfl, rfl, rfl⟩

/-- C9 at a concrete input: the naive datetime 2024-05-29 17:57:17.631346
round-trips to 2024-05-29 17:57:17 with offset UTC+0. -/
theorem updated_at_roundtrip_witness :
    ∃ e, validate_dt (fun _ => some ⟨2024, 5, 29, 17, 57, 17, 0, some 0⟩)
        (serialize_datetime (fun _ => "2024-05-29T17:57:17+00:00")
          (.dt ⟨2024, 5, 29, 17, 57, 17, 631346, Option.none⟩)) = .ok (some e) ∧
      e.year = 2024 ∧ e.month = 5 ∧ e.day = 29 ∧ e.hour = 17 ∧
      e.minute = 57 ∧ e.second = 17 ∧ e.microsecond = 0 ∧ e.tzinfo = some 0 :=
  updated_at_roundtrip (fun _ => "2024-05-29T17:57:17+00:00")
    (fun _ => some ⟨2024, 5, 29, 17, 57, 17, 0, some 0⟩)
    ⟨2024, 5, 29, 17, 57, 17, 631346, Option.none⟩ rfl

/-- The first character of a string that starts with `c` is a member of its
character list (and the string is not empty). -/
theorem mem_of_pyStartsWith1 (s : String) (c : Char)
    (h : pyStartsWith1 s c = true) : c ∈ s.data ∧ s ≠ "" := by
  unfold pyStartsWith1 at h
  have hh : s.data.head? = some c := by simpa using h
  cases hd : s.data with
  | nil => rw [hd] at hh; exact absurd hh (by simp)
  | cons a l =>
    rw [hd] at hh
    simp only [List.head?_cons, Option.some.injEq] at hh
    constructor
    · rw [← hh]
      exact List.mem_cons_self a l
    · intro he
      rw [he] at hd
      simp at hd

/-- A string containing a colon is not a hyphens-and-letters lucide name. -/
theorem pyIsAlphaNoDash_false_of_colon (s : String) (h : ':' ∈ s.data) :
    pyIsAlphaNoDash s = false := by
  unfold pyIsAlphaNoDash
  apply Bool.eq_false_iff.mpr
  intro hall
  have h2 := (Bool.and_eq_true _ _).mp hall |>.2
  have h3 := List.all_eq_true.mp h2 ':' (List.mem_filter.mpr ⟨h, by decide⟩)
  exact absurd h3 (by decide)

/-- C10: for every icon text that both starts and ends with a colon and whose
emoji-name resolution is not purely emoji, validation rejects: the fallback
lucide checks run on the original colon-delimited text, whose colon can never
be a letter or hyphen, so the accept branch is unreachable. -/
theorem icon_emoji_fallback_rejects (emojize : String → String)
    (purelyEmoji : String → Bool) (s : String)
    (hs : pyStartsWith1 s ':' = true) (he : pyEndsWith1 s ':' = true)
    (hp : purelyEmoji (emojize s) = false) :
    ∃ msg, validate_icon_atr emojize purelyEmoji (some s) = .error msg := by
  obtain ⟨hmem, hsne⟩ := mem_of_pyStartsWith1 s ':' hs
  simp only [validate_icon_atr]
  rw [if_neg, if_neg]
  · rw [if_neg]
    · cases hL : pyIsLower s with
      | false =>
        refine ⟨"Icon must be lowercase", ?_⟩
        rw [if_pos ⟨hsne, rfl⟩]
      | true =>
        refine ⟨"Icon must contain only letters and hyphens", ?_⟩
        rw [if_neg, if_pos ⟨hsne, pyIsAlphaNoDash_false_of_colon s hmem⟩]
        rintro ⟨_, hc⟩
        exact absurd hc (by decide)
    · rw [hp]
      exact Bool.false_ne_true
  · rintro (hc | hc)
    · exact absurd (hs.symm.trans hc) (by decide)
    · exact absurd (he.symm.trans hc) (by decide)
  · rintro ⟨hc, _⟩
    exact absurd (hs.symm.trans hc) (by decide)

/-- C10 at a concrete input: `":rocket:"` with an emoji table that does not
resolve it to a pure emoji is rejected. -/
theorem icon_emoji_fallback_rejects_witness :
    ∃ msg, validate_icon_atr (fun x => x) (fun _ => false) (some ":rocket:") =
      .error msg :=
  icon_emoji_fallback_rejects (fun x => x) (fun _ => false) ":rocket:" rfl rfl rfl

end Langflow
